import Mathlib

/-!
Verification of the traskribe relay (`src/main.py`) against its
natural-language specification.  The Python source is shallowly embedded:
JSON values become an inductive `JVal` (so that Python truthiness and
`KeyError`/`AttributeError` behaviour are representable), the webhook
handler and the helpers become pure functions over explicit request and
response values, and the background poll loop becomes a function from a
finite list of export responses to the trace of events it performs.
-/

/-- JSON values, as produced by `request.get_json` / `resp.json()`. -/
inductive JVal where
  | jnull : JVal
  | jbool : Bool → JVal
  | jnum : Int → JVal
  | jstr : String → JVal
  | jarr : List JVal → JVal
  | jobj : List (String × JVal) → JVal

/-- Python truthiness of a JSON value (`if not update:` etc.). -/
def truthy : JVal → Bool
  | .jnull => false
  | .jbool b => b
  | .jnum n => n != 0
  | .jstr s => !s.isEmpty
  | .jarr xs => !xs.isEmpty
  | .jobj fs => !fs.isEmpty

/-- Field lookup in a JSON object field list (first match wins). -/
def jget (fields : List (String × JVal)) (k : String) : Option JVal :=
  match fields.find? (fun p => p.1 == k) with
  | some p => some p.2
  | none => none

/-- Exceptions that the Python code can raise and that Flask would turn
into an HTTP 500 response. -/
inductive PyError where
  | keyError : String → PyError
  | typeError : PyError
  | attributeError : PyError
  | valueError : PyError
deriving DecidableEq

/-- Python `d.get(k)`: raises `AttributeError` when the receiver is not a dict,
otherwise returns the field or Python `None` (here `none`). -/
def jdictGet (v : JVal) (k : String) : Except PyError (Option JVal) :=
  match v with
  | .jobj fs => Except.ok (jget fs k)
  | _ => Except.error PyError.attributeError

/-- Python `d[k]`: `KeyError` on a missing key, `TypeError` when the receiver is
not a dict. -/
def jindex (v : JVal) (k : String) : Except PyError JVal :=
  match v with
  | .jobj fs =>
    match jget fs k with
    | some x => Except.ok x
    | none => Except.error (PyError.keyError k)
  | _ => Except.error PyError.typeError

/-- Python `d.get(k, default)` on a value already known to be a dict. -/
def jgetD (v : JVal) (k : String) (dflt : JVal) : JVal :=
  match v with
  | .jobj fs => (jget fs k).getD dflt
  | _ => dflt

/-- Python `a or b` over two optional JSON values (`None` is falsy). -/
def pyOr (a b : Option JVal) : Option JVal :=
  match a with
  | some v => if truthy v then some v else b
  | none => b

/-- Python `str` whitespace (the ASCII characters stripped/split by
`str.strip()` and `str.split()`). -/
def pyIsSpace (c : Char) : Bool :=
  c == ' ' || c == '\t' || c == '\n' || c == '\r' ||
  c == Char.ofNat 11 || c == Char.ofNat 12

/-- Drop leading Python whitespace. -/
def dropWS (xs : List Char) : List Char := xs.dropWhile pyIsSpace

/-- Python `str.strip()` over the code points of a string. -/
def pyStrip (xs : List Char) : List Char :=
  ((dropWS xs).reverse.dropWhile pyIsSpace).reverse

/-- Python `str.split(maxsplit=1)`: split on runs of whitespace, at most
one split; leading and trailing whitespace produce no fields. -/
def pySplitMax1 (xs : List Char) : List (List Char) :=
  let ys := dropWS xs
  if ys.isEmpty then []
  else
    let w := ys.takeWhile (fun c => !pyIsSpace c)
    let rest := dropWS (ys.dropWhile (fun c => !pyIsSpace c))
    if rest.isEmpty then [w] else [w, rest]

/-- UTF-8 encoding of one code point (Python `str.encode("utf-8")`). -/
def utf8Bytes (c : Char) : List Nat :=
  let n := c.toNat
  if n < 128 then [n]
  else if n < 2048 then [192 + n / 64, 128 + n % 64]
  else if n < 65536 then [224 + n / 4096, 128 + (n / 64) % 64, 128 + n % 64]
  else [240 + n / 262144, 128 + (n / 4096) % 64, 128 + (n / 64) % 64, 128 + n % 64]

/-- UTF-8 encoding of a string, as a byte list. -/
def encodeUtf8 (s : String) : List Nat := s.data.flatMap utf8Bytes

/-- An HTTP response as seen through the `requests` library: status code,
raw body text, and the parsed JSON body (`none` when `resp.json()` would
raise because the body is not valid JSON). -/
structure HResp where
  status : Nat
  text : String
  json : Option JVal

/-- Property `resp.ok` in `requests`: true exactly when the status is below 400. -/
def respOk (r : HResp) : Bool := r.status < 400

/-- The `send_message` chunking: the slices `text[i : i + 4096]` for
`i = 0, 4096, 8192, …`, in order. -/
def chunkText (xs : List Char) : List (List Char) :=
  if h : xs = [] then []
  else xs.take 4096 :: chunkText (xs.drop 4096)
termination_by xs.length
decreasing_by
  simp only [List.length_drop]
  exact Nat.sub_lt (List.length_pos.mpr h) (by omega)

/-- Python `send_message(chat_id, text, reply_to)`: one `sendMessage` API call
per 4096-character slice of the text, in slice order.  Each element of
the result is the `(chat_id, part, reply_to_message_id)` payload of one
call to `send_telegram_request`. -/
def send_message (chat_id : Int) (text : List Char) (reply_to : Option Int) :
    List (Int × List Char × Option Int) :=
  (chunkText text).map fun part => (chat_id, part, reply_to)

/-- Python `send_telegram_request(method, **params)` applied to the response the
platform returns: logs when `resp.ok` is false, then returns
`resp.json()`, which raises when the body is not valid JSON. -/
def send_telegram_request (method : String) (r : HResp) :
    List String × Except PyError JVal :=
  ((if respOk r then []
    else ["[Telegram] " ++ method ++ " failed: " ++ toString r.status ++ " – " ++ r.text]),
   match r.json with
   | some j => Except.ok j
   | none => Except.error PyError.valueError)

/-- Python `send_document(chat_id, file_name, file_bytes, caption)` applied to
the response: it only logs on a non-ok status and never raises. -/
def send_document (chat_id : Int) (file_name : String) (file_bytes : List Nat)
    (caption : String) (r : HResp) : List String :=
  if respOk r then []
  else ["[Telegram] sendDocument failed: " ++ toString r.status ++ " – " ++ r.text]

/-- Errors escaping `create_transcription`: a `requests.HTTPError`
carrying the response text (caught by the webhook handler), or any other
Python exception (uncaught). -/
inductive SubmitError where
  | httpError : String → SubmitError
  | otherError : PyError → SubmitError
deriving DecidableEq

/-- Python `resp.raise_for_status()`: raises `HTTPError` exactly for status
codes in `[400, 600)`. -/
def raise_for_status (r : HResp) : Except SubmitError Unit :=
  if 400 ≤ r.status ∧ r.status < 600 then Except.error (SubmitError.httpError r.text)
  else Except.ok ()

/-- Python `create_transcription` applied to the response of the creation
request: `raise_for_status`, then `resp.json()["order_id"]`. -/
def create_transcription (r : HResp) : Except SubmitError JVal :=
  match raise_for_status r with
  | Except.error e => Except.error e
  | Except.ok _ =>
    match r.json with
    | none => Except.error (SubmitError.otherError PyError.valueError)
    | some data =>
      match data with
      | .jobj fields =>
        match jget fields "order_id" with
        | some v => Except.ok v
        | none => Except.error (SubmitError.otherError (PyError.keyError "order_id"))
      | _ => Except.error (SubmitError.otherError PyError.typeError)

/-- The JSON body of one export response, as read by `poll_and_send`:
the optional `content` and `presigned_url` fields. -/
structure ExportData where
  content : Option String
  presigned_url : Option String
deriving DecidableEq

/-- Python truthiness of `data.get(field)` for a string field: present
and non-empty. -/
def truthyOptStr : Option String → Bool
  | some s => !s.isEmpty
  | none => false

/-- Observable events of one delivery task: sleeping for the poll
interval, one `send_document` call, or one `send_message` call. -/
inductive PEvent where
  | sleep : Nat → PEvent
  | sendDocument : Int → String → List Nat → String → PEvent
  | sendMessage : Int → String → PEvent
deriving DecidableEq

/-- Python `poll_and_send(order_id, chat_id)` run against a finite list of
export responses (each a status code and parsed body).  Returns the
ordered trace of events and whether the loop terminated (`break`); when
the response list is exhausted with the loop still running the flag is
`false`. -/
def pollAndSend (interval : Nat) (order_id : String) (chat_id : Int) :
    List (Nat × ExportData) → List PEvent × Bool
  | [] => ([], false)
  | (status_code, data) :: rest =>
    if status_code = 200 then
      if truthyOptStr data.content then
        ([PEvent.sendDocument chat_id (order_id ++ ".txt")
            (encodeUtf8 ((data.content).getD "")) "Here is your transcript!"], true)
      else if truthyOptStr data.presigned_url then
        ([PEvent.sendMessage chat_id
            ("Transcription is ready: " ++ (data.presigned_url).getD "")], true)
      else
        ([PEvent.sendMessage chat_id
            "Transcription completed but no content was returned."], true)
    else if status_code = 202 then
      (PEvent.sleep interval :: (pollAndSend interval order_id chat_id rest).1,
       (pollAndSend interval order_id chat_id rest).2)
    else
      ([PEvent.sendMessage chat_id
          ("Failed to retrieve transcript (status: " ++ toString status_code ++ ").")], true)

/-- Number of `send_document` calls in a delivery-task trace. -/
def countDocs (evs : List PEvent) : Nat :=
  (evs.filter fun e => match e with | PEvent.sendDocument _ _ _ _ => true | _ => false).length

/-- Number of `send_message` calls in a delivery-task trace. -/
def countMsgs (evs : List PEvent) : Nat :=
  (evs.filter fun e => match e with | PEvent.sendMessage _ _ => true | _ => false).length

/-- Number of sleeps in a delivery-task trace. -/
def countSleeps (evs : List PEvent) : Nat :=
  (evs.filter fun e => match e with | PEvent.sleep _ => true | _ => false).length

/-- One action performed by the webhook handler: a `send_message` call, a
`create_transcription` call (the order submission), or the start of one
delivery task (`threading.Thread(target=poll_and_send, …).start()`). -/
inductive WAction where
  | sendMessage : JVal → String → WAction
  | submitOrder : List Char → WAction
  | startThread : String → JVal → WAction

/-- Whether an action list contains an order submission. -/
def containsSubmitOrder (acts : List WAction) : Bool :=
  acts.any fun a => match a with | WAction.submitOrder _ => true | _ => false

/-- Whether an action list starts a delivery task. -/
def containsStartThread (acts : List WAction) : Bool :=
  acts.any fun a => match a with | WAction.startThread _ _ => true | _ => false

/-- The command-handling tail of `telegram_webhook`, from
`text.startswith("/transcribe")` on.  `submit` is the outcome of the
`create_transcription` call the handler would make. -/
def handleText (chat_id : JVal) (text : List Char) (submit : Except SubmitError String) :
    List WAction × Except PyError (Nat × JVal) :=
  if "/transcribe".data.isPrefixOf text then
    match pySplitMax1 text with
    | [_, youtube_url] =>
      match submit with
      | Except.ok order_id =>
        ([WAction.submitOrder youtube_url,
          WAction.sendMessage chat_id
            ("✅ Transcription started! Order ID: " ++ order_id ++
             "\nI\x27ll notify you when it\x27s ready."),
          WAction.startThread order_id chat_id],
         Except.ok (200, JVal.jobj []))
      | Except.error (SubmitError.httpError body) =>
        ([WAction.submitOrder youtube_url,
          WAction.sendMessage chat_id ("❌ Failed to create transcription: " ++ body)],
         Except.ok (200, JVal.jobj []))
      | Except.error (SubmitError.otherError e) =>
        ([WAction.submitOrder youtube_url], Except.error e)
    | _ =>
      ([WAction.sendMessage chat_id "Usage: /transcribe <YouTube URL>"],
       Except.ok (200, JVal.jobj []))
  else
    ([WAction.sendMessage chat_id "Send /transcribe <YouTube URL> to start a transcription."],
     Except.ok (200, JVal.jobj []))

/-- Python `telegram_webhook()` on a parsed update body.  The first component is
the list of actions performed before returning or raising; the second is
either the HTTP result `(200, {})` or the uncaught Python exception
(which Flask would turn into an HTTP 500 response). -/
def telegram_webhook (update : JVal) (submit : Except SubmitError String) :
    List WAction × Except PyError (Nat × JVal) :=
  if truthy update = false then ([], Except.ok (200, JVal.jobj []))
  else
    match jdictGet update "message", jdictGet update "edited_message" with
    | Except.error e, _ => ([], Except.error e)
    | Except.ok _, Except.error e => ([], Except.error e)
    | Except.ok m1, Except.ok m2 =>
      match pyOr m1 m2 with
      | none => ([], Except.ok (200, JVal.jobj []))
      | some message =>
        if truthy message = false then ([], Except.ok (200, JVal.jobj []))
        else
          match jindex message "chat" with
          | Except.error e => ([], Except.error e)
          | Except.ok chat =>
            match jindex chat "id" with
            | Except.error e => ([], Except.error e)
            | Except.ok chat_id =>
              match jgetD message "text" (JVal.jstr "") with
              | JVal.jstr s => handleText chat_id (pyStrip s.data) submit
              | _ => ([], Except.error PyError.attributeError)

/-- A well-formed Telegram update carrying one message with a chat id and
a text field. -/
def mkUpdate (chat : Int) (text : String) : JVal :=
  JVal.jobj [("message", JVal.jobj
    [("chat", JVal.jobj [("id", JVal.jnum chat)]), ("text", JVal.jstr text)])]

/-- The condition under which the code submits an order, on the trimmed
text: `text.startswith("/transcribe")` and `len(text.split(maxsplit=1)) == 2`. -/
def codeCond (t : List Char) : Bool :=
  "/transcribe".data.isPrefixOf t && (pySplitMax1 t).length == 2

/-- Modelled from the claim wording (not from the source): the trimmed
text begins with the command token `/transcribe` followed by a whitespace
character and a non-empty argument. -/
def specCommandMatch (t : List Char) : Bool :=
  "/transcribe".data.isPrefixOf t &&
  (match t.drop 11 with
   | c :: rest => pyIsSpace c && !(dropWS rest).isEmpty
   | [] => false)

/-- Evaluating `telegram_webhook` on a well-formed single-message update reduces to
the command-handling tail on the trimmed text. -/
theorem webhook_mkUpdate (chat : Int) (s : String) (submit : Except SubmitError String) :
    telegram_webhook (mkUpdate chat s) submit =
      handleText (JVal.jnum chat) (pyStrip s.data) submit := rfl

/-- Concatenating the slices recovers the original text. -/
theorem chunkText_flatten (xs : List Char) : (chunkText xs).flatten = xs := by
  have H : ∀ n (ys : List Char), ys.length ≤ n → (chunkText ys).flatten = ys := by
    intro n
    induction n with
    | zero =>
      intro ys hy
      have : ys = [] := List.length_eq_zero.mp (Nat.le_zero.mp hy)
      subst this
      simp [chunkText]
    | succ n ih =>
      intro ys hy
      by_cases hys : ys = []
      · simp [chunkText, hys]
      · rw [chunkText]
        simp only [hys, dif_neg, not_false_iff, List.flatten_cons]
        rw [ih (ys.drop 4096)]
        · exact List.take_append_drop 4096 ys
        · have h1 : 0 < ys.length := List.length_pos.mpr hys
          simp only [List.length_drop]
          omega
  exact H xs.length xs le_rfl

/-- Each slice has at most 4096 characters. -/
theorem chunkText_length_le (xs : List Char) :
    ∀ c ∈ chunkText xs, c.length ≤ 4096 := by
  have H : ∀ n (ys : List Char), ys.length ≤ n → ∀ c ∈ chunkText ys, c.length ≤ 4096 := by
    intro n
    induction n with
    | zero =>
      intro ys hy
      have : ys = [] := List.length_eq_zero.mp (Nat.le_zero.mp hy)
      subst this
      simp [chunkText]
    | succ n ih =>
      intro ys hy c hc
      by_cases hys : ys = []
      · simp [chunkText, hys] at hc
      · rw [chunkText] at hc
        simp only [hys, dif_neg, not_false_iff, List.mem_cons] at hc
        rcases hc with hc | hc
        · subst hc
          exact List.length_take_le 4096 ys
        · refine ih (ys.drop 4096) ?_ c hc
          have h1 : 0 < ys.length := List.length_pos.mpr hys
          simp only [List.length_drop]
          omega
  exact H xs.length xs le_rfl

/-- The number of slices is `⌈length / 4096⌉`, computed as
`(length + 4095) / 4096`. -/
theorem chunkText_count (xs : List Char) :
    (chunkText xs).length = (xs.length + 4095) / 4096 := by
  have H : ∀ n (ys : List Char), ys.length ≤ n →
      (chunkText ys).length = (ys.length + 4095) / 4096 := by
    intro n
    induction n with
    | zero =>
      intro ys hy
      have : ys = [] := List.length_eq_zero.mp (Nat.le_zero.mp hy)
      subst this
      simp [chunkText]
    | succ n ih =>
      intro ys hy
      by_cases hys : ys = []
      · simp [chunkText, hys]
      · have h1 : 0 < ys.length := List.length_pos.mpr hys
        rw [chunkText]
        simp only [hys, dif_neg, not_false_iff, List.length_cons]
        rw [ih (ys.drop 4096) (by simp only [List.length_drop]; omega)]
        simp only [List.length_drop]
        have hsplit : ys.length + 4095 = (ys.length - 1) + 4096 := by omega
        rw [hsplit, Nat.add_div_right _ (by omega)]
        by_cases hle : ys.length ≤ 4096
        · have e1 : ys.length - 4096 = 0 := by omega
          rw [e1]
          have e2 : (4095 : Nat) / 4096 = 0 := Nat.div_eq_of_lt (by omega)
          have e3 : (ys.length - 1) / 4096 = 0 := Nat.div_eq_of_lt (by omega)
          omega
        · have e1 : ys.length - 4096 + 4095 = (ys.length - 4097) + 4096 := by omega
          have e2 : ys.length - 1 = (ys.length - 4097) + 4096 := by omega
          rw [e1, Nat.add_div_right _ (by omega), e2, Nat.add_div_right _ (by omega)]
  exact H xs.length xs le_rfl

/-- C3: every text passed to `send_message` is split into
`⌈length / 4096⌉` ordered chunks, each of at most 4096 characters, whose
concatenation in send order is the original text, and each chunk is the
payload of one separate `sendMessage` call. -/
theorem send_message_chunking (chat : Int) (reply : Option Int) (text : List Char) :
    (send_message chat text reply).length = (text.length + 4095) / 4096 ∧
    (∀ p ∈ send_message chat text reply, p.2.1.length ≤ 4096) ∧
    ((send_message chat text reply).map (fun p => p.2.1)).flatten = text := by
  refine ⟨?_, ?_, ?_⟩
  · simp [send_message, chunkText_count]
  · intro p hp
    simp only [send_message, List.mem_map] at hp
    obtain ⟨part, hpart, rfl⟩ := hp
    exact chunkText_length_le text part hpart
  · simp only [send_message, List.map_map]
    have hcomp : ((fun p : Int × List Char × Option Int => p.2.1) ∘
        fun part => (chat, part, reply)) = id := rfl
    rw [hcomp, List.map_id, chunkText_flatten]

/-- C9: for order "abc123" with export responses 202, 202, then 200 with
content "hello", the task sleeps twice for the configured interval and
then sends exactly one document named `abc123.txt` whose bytes are the
UTF-8 encoding of "hello". -/
theorem scenario_abc123 (interval : Nat) (chat : Int) :
    pollAndSend interval "abc123" chat
        [(202, ⟨none, none⟩), (202, ⟨none, none⟩), (200, ⟨some "hello", none⟩)] =
      ([PEvent.sleep interval, PEvent.sleep interval,
        PEvent.sendDocument chat "abc123.txt" (encodeUtf8 "hello") "Here is your transcript!"],
       true) ∧
    encodeUtf8 "hello" = [104, 101, 108, 108, 111] := ⟨rfl, by decide⟩

/-- The poll loop terminates on a 200 response. -/
theorem pollAndSend_done_200 (interval : Nat) (oid : String) (chat : Int)
    (d : ExportData) (rest : List (Nat × ExportData)) :
    (pollAndSend interval oid chat ((200, d) :: rest)).2 = true := by
  simp only [pollAndSend, if_pos rfl]
  by_cases hc : truthyOptStr d.content
  · simp [hc]
  · by_cases hp : truthyOptStr d.presigned_url <;> simp [hc, hp]

/-- C7: the poll loop has no retry bound: over any finite response
sequence it terminates exactly when some response has a status other
than 202, and while every response is 202 it just keeps sleeping the
fixed configured interval between polls. -/
theorem poll_no_timeout (interval : Nat) (oid : String) (chat : Int)
    (rs : List (Nat × ExportData)) :
    ((pollAndSend interval oid chat rs).2 = true ↔ ∃ p ∈ rs, p.1 ≠ 202) ∧
    ((∀ p ∈ rs, p.1 = 202) →
      pollAndSend interval oid chat rs = (rs.map fun _ => PEvent.sleep interval, false)) := by
  induction rs with
  | nil => simp [pollAndSend]
  | cons hd tl ih =>
    obtain ⟨s, d⟩ := hd
    by_cases h200 : s = 200
    · subst h200
      constructor
      · rw [pollAndSend_done_200]
        simp only [true_iff]
        exact ⟨(200, d), List.mem_cons_self _ _, by omega⟩
      · intro hall
        have := hall (200, d) (List.mem_cons_self _ _)
        simp at this
    · by_cases h202 : s = 202
      · subst h202
        constructor
        · constructor
          · intro ht
            simp only [pollAndSend, if_neg (by omega : ¬ (202 : Nat) = 200), if_pos rfl] at ht
            obtain ⟨p, hp, hne⟩ := ih.1.mp ht
            exact ⟨p, List.mem_cons_of_mem _ hp, hne⟩
          · rintro ⟨p, hp, hne⟩
            rcases List.mem_cons.mp hp with rfl | hp'
            · simp at hne
            · simp only [pollAndSend, if_neg (by omega : ¬ (202 : Nat) = 200), if_pos rfl]
              exact ih.1.mpr ⟨p, hp', hne⟩
        · intro hall
          have htl := ih.2 (fun p hp => hall p (List.mem_cons_of_mem _ hp))
          simp only [pollAndSend, if_neg (by omega : ¬ (202 : Nat) = 200), if_pos rfl,
            List.map_cons, htl, if_true]
      · constructor
        · simp only [pollAndSend, if_neg h200, if_neg h202, true_iff]
          exact ⟨(s, d), List.mem_cons_self _ _, h202⟩
        · intro hall
          exact absurd (hall (s, d) (List.mem_cons_self _ _)) h202

/-- Witness for `poll_no_timeout`: an all-202 run only sleeps and does
not terminate. -/
theorem poll_no_timeout_witness :
    pollAndSend 30 "o" 1 [(202, ⟨none, none⟩), (202, ⟨none, none⟩)] =
      ([PEvent.sleep 30, PEvent.sleep 30], false) :=
  (poll_no_timeout 30 "o" 1 [(202, ⟨none, none⟩), (202, ⟨none, none⟩)]).2 (by decide)

/-- C1 (amended): per poll iteration, 202 sleeps and polls on; 200 with
a non-empty content string sends exactly one document and no message and
terminates; 200 with content absent and presigned_url present sends
exactly one message whose text contains that URL and terminates; any
other status sends exactly one failure message naming the status code
and terminates. -/
theorem poll_and_send_branches (interval : Nat) (oid : String) (chat : Int)
    (d : ExportData) (rest : List (Nat × ExportData)) :
    (pollAndSend interval oid chat ((202, d) :: rest) =
      (PEvent.sleep interval :: (pollAndSend interval oid chat rest).1,
       (pollAndSend interval oid chat rest).2)) ∧
    (∀ s, d.content = some s → s ≠ "" →
      pollAndSend interval oid chat ((200, d) :: rest) =
        ([PEvent.sendDocument chat (oid ++ ".txt") (encodeUtf8 s)
            "Here is your transcript!"], true) ∧
      countDocs (pollAndSend interval oid chat ((200, d) :: rest)).1 = 1 ∧
      countMsgs (pollAndSend interval oid chat ((200, d) :: rest)).1 = 0) ∧
    (∀ u, d.content = none → d.presigned_url = some u →
      ∃ t, pollAndSend interval oid chat ((200, d) :: rest) =
          ([PEvent.sendMessage chat t], true) ∧ ∃ pre, t = pre ++ u) ∧
    (∀ s, s ≠ 200 → s ≠ 202 →
      pollAndSend interval oid chat ((s, d) :: rest) =
        ([PEvent.sendMessage chat
            ("Failed to retrieve transcript (status: " ++ toString s ++ ").")], true)) := by
  refine ⟨?_, ?_, ?_, ?_⟩
  · simp [pollAndSend]
  · intro s hc hs
    have hie : s.isEmpty = false := by
      cases he : s.isEmpty
      · rfl
      · exact absurd ((String.isEmpty_iff s).mp he) hs
    have heq : pollAndSend interval oid chat ((200, d) :: rest) =
        ([PEvent.sendDocument chat (oid ++ ".txt") (encodeUtf8 s)
            "Here is your transcript!"], true) := by
      simp [pollAndSend, hc, truthyOptStr, hie]
    refine ⟨heq, ?_, ?_⟩ <;> rw [heq] <;> rfl
  · intro u hc hp
    by_cases hu : u = ""
    · subst hu
      refine ⟨"Transcription completed but no content was returned.", ?_,
        "Transcription completed but no content was returned.", ?_⟩
      · simp [pollAndSend, hc, hp, truthyOptStr, String.isEmpty_iff]
      · rw [String.append_empty]
    · have hie : u.isEmpty = false := by
        cases he : u.isEmpty
        · rfl
        · exact absurd ((String.isEmpty_iff u).mp he) hu
      refine ⟨"Transcription is ready: " ++ u, ?_, "Transcription is ready: ", rfl⟩
      simp [pollAndSend, hc, hp, truthyOptStr, hie]
  · intro s h1 h2
    simp only [pollAndSend, if_neg h1, if_neg h2]

/-- C1 counterexample: a 200 response whose content field is set to the
empty string yields zero document sends and one message send, not one
document send and zero message sends. -/
theorem poll_and_send_branches_counterexample :
    (pollAndSend 30 "abc" 7 [(200, ⟨some "", none⟩)]).1 =
      [PEvent.sendMessage 7 "Transcription completed but no content was returned."] ∧
    countDocs (pollAndSend 30 "abc" 7 [(200, ⟨some "", none⟩)]).1 = 0 ∧
    countMsgs (pollAndSend 30 "abc" 7 [(200, ⟨some "", none⟩)]).1 = 1 := ⟨rfl, rfl, rfl⟩

/-- Witness for `poll_and_send_branches` at concrete inputs for each
branch. -/
theorem poll_and_send_branches_witness :
    pollAndSend 30 "o" 1 [(202, ⟨none, none⟩)] =
      (PEvent.sleep 30 :: (pollAndSend 30 "o" 1 []).1, (pollAndSend 30 "o" 1 []).2) ∧
    pollAndSend 30 "o" 1 [(200, ⟨some "hi", none⟩)] =
      ([PEvent.sendDocument 1 "o.txt" (encodeUtf8 "hi") "Here is your transcript!"], true) ∧
    (∃ t, pollAndSend 30 "o" 1 [(200, ⟨none, some "http://u"⟩)] =
        ([PEvent.sendMessage 1 t], true) ∧ ∃ pre, t = pre ++ "http://u") ∧
    pollAndSend 30 "o" 1 [(404, ⟨none, none⟩)] =
      ([PEvent.sendMessage 1 ("Failed to retrieve transcript (status: " ++
          toString (404 : Nat) ++ ").")], true) :=
  ⟨(poll_and_send_branches 30 "o" 1 ⟨none, none⟩ []).1,
   ((poll_and_send_branches 30 "o" 1 ⟨some "hi", none⟩ []).2.1 "hi" rfl (by decide)).1,
   (poll_and_send_branches 30 "o" 1 ⟨none, some "http://u"⟩ []).2.2.1 "http://u" rfl rfl,
   (poll_and_send_branches 30 "o" 1 ⟨none, none⟩ []).2.2.2 404 (by decide) (by decide)⟩

/-- C6 (amended): an unsuccessful platform response — one with `resp.ok`
false, i.e. status at least 400 — is logged by both notifier helpers and
does not by itself raise, and a response with `resp.ok` true is not
logged; `send_document` never raises on any response; the message-send
helper, however, also returns the parsed response body, so it raises to
its caller whenever the body is not valid JSON (whatever the status),
which on a failed delivery such as an HTML 502 page crashes the calling
task. -/
theorem notifier_failure_logged (method : String) (chat : Int) (name : String)
    (bytes : List Nat) (caption : String) (r : HResp) :
    (respOk r = false →
      (send_telegram_request method r).1 =
        ["[Telegram] " ++ method ++ " failed: " ++ toString r.status ++ " – " ++ r.text] ∧
      send_document chat name bytes caption r =
        ["[Telegram] sendDocument failed: " ++ toString r.status ++ " – " ++ r.text]) ∧
    (respOk r = true →
      (send_telegram_request method r).1 = [] ∧
      send_document chat name bytes caption r = []) ∧
    (∀ j, r.json = some j → (send_telegram_request method r).2 = Except.ok j) ∧
    (r.json = none →
      (send_telegram_request method r).2 = Except.error PyError.valueError) := by
  refine ⟨?_, ?_, ?_, ?_⟩
  · intro h
    constructor <;> simp [send_telegram_request, send_document, h]
  · intro h
    constructor <;> simp [send_telegram_request, send_document, h]
  · intro j hj
    simp [send_telegram_request, hj]
  · intro hj
    simp [send_telegram_request, hj]

/-- C6 counterexample: a delivery failure whose body is not valid JSON
(status 502, body "Bad Gateway") makes the message-send helper raise to
its caller after logging, refuting "never raises an exception". -/
theorem notifier_failure_logged_counterexample :
    respOk ⟨502, "Bad Gateway", none⟩ = false ∧
    (send_telegram_request "sendMessage" ⟨502, "Bad Gateway", none⟩).2 =
      Except.error PyError.valueError := ⟨rfl, rfl⟩

/-- Witness for `notifier_failure_logged`, exercising the logged 404
case, the unlogged 200 case, the parsed-body return, and the raise on a
non-JSON body. -/
theorem notifier_failure_logged_witness :
    (send_telegram_request "sendMessage" ⟨404, "nf", some (JVal.jobj [])⟩).1 =
      ["[Telegram] " ++ "sendMessage" ++ " failed: " ++ toString (404 : Nat) ++ " – " ++ "nf"] ∧
    send_document 1 "f.txt" [] "" ⟨404, "nf", some (JVal.jobj [])⟩ =
      ["[Telegram] sendDocument failed: " ++ toString (404 : Nat) ++ " – " ++ "nf"] ∧
    (send_telegram_request "sendMessage" ⟨200, "ok", some JVal.jnull⟩).1 = [] ∧
    send_document 1 "f.txt" [] "" ⟨200, "ok", some JVal.jnull⟩ = [] ∧
    (send_telegram_request "sendMessage" ⟨404, "nf", some (JVal.jobj [])⟩).2 =
      Except.ok (JVal.jobj []) ∧
    (send_telegram_request "sendMessage" ⟨500, "internal error page", none⟩).2 =
      Except.error PyError.valueError := by
  have h1 := notifier_failure_logged "sendMessage" 1 "f.txt" [] "" ⟨404, "nf", some (JVal.jobj [])⟩
  have h2 := notifier_failure_logged "sendMessage" 1 "f.txt" [] "" ⟨200, "ok", some JVal.jnull⟩
  have h3 := notifier_failure_logged "sendMessage" 1 "f.txt" [] ""
    ⟨500, "internal error page", none⟩
  exact ⟨(h1.1 rfl).1, (h1.1 rfl).2, (h2.2.1 rfl).1, (h2.2.1 rfl).2,
    h1.2.2.1 (JVal.jobj []) rfl, h3.2.2.2 rfl⟩

/-- C8 (amended): the order submitter returns the identifier whenever the
status is not 4xx/5xx (in particular on 2xx) and the body carries it;
it propagates an HTTP error exactly on 4xx/5xx; and it raises a key
error when the status is not 4xx/5xx but the body lacks the identifier
field.  Statuses outside [400, 600) are not rejected by
`raise_for_status`. -/
theorem create_transcription_contract (r : HResp) :
    (∀ fields v, r.json = some (JVal.jobj fields) → jget fields "order_id" = some v →
      ¬ (400 ≤ r.status ∧ r.status < 600) → create_transcription r = Except.ok v) ∧
    (400 ≤ r.status → r.status < 600 →
      create_transcription r = Except.error (SubmitError.httpError r.text)) ∧
    (∀ fields, r.json = some (JVal.jobj fields) → jget fields "order_id" = none →
      ¬ (400 ≤ r.status ∧ r.status < 600) →
      create_transcription r =
        Except.error (SubmitError.otherError (PyError.keyError "order_id"))) := by
  refine ⟨?_, ?_, ?_⟩
  · intro fields v hj hv hns
    simp [create_transcription, raise_for_status, hns, hj, hv]
  · intro h1 h2
    simp [create_transcription, raise_for_status, h1, h2]
  · intro fields hj hv hns
    simp [create_transcription, raise_for_status, hns, hj, hv]

/-- C8 counterexample: a 304 response (non-2xx) with an identifier in the
body is not rejected; the call returns the identifier instead of
failing. -/
theorem create_transcription_contract_counterexample :
    create_transcription ⟨304, "", some (JVal.jobj [("order_id", JVal.jstr "x")])⟩ =
      Except.ok (JVal.jstr "x") := rfl

/-- Witness for `create_transcription_contract` at concrete responses. -/
theorem create_transcription_contract_witness :
    create_transcription ⟨200, "", some (JVal.jobj [("order_id", JVal.jstr "ord1")])⟩ =
      Except.ok (JVal.jstr "ord1") ∧
    create_transcription ⟨400, "Bad Request", some (JVal.jobj [])⟩ =
      Except.error (SubmitError.httpError "Bad Request") ∧
    create_transcription ⟨200, "", some (JVal.jobj [("id", JVal.jstr "x")])⟩ =
      Except.error (SubmitError.otherError (PyError.keyError "order_id")) := by
  have h200 := create_transcription_contract
    ⟨200, "", some (JVal.jobj [("order_id", JVal.jstr "ord1")])⟩
  have h400 := create_transcription_contract ⟨400, "Bad Request", some (JVal.jobj [])⟩
  have hmiss := create_transcription_contract ⟨200, "", some (JVal.jobj [("id", JVal.jstr "x")])⟩
  exact ⟨h200.1 _ _ rfl rfl (by decide), h400.2.1 (by decide) (by decide),
    hmiss.2.2 _ rfl rfl (by decide)⟩

/-- Every HTTP response the handler itself produces is 200 with body
`{}`; on the remaining inputs an exception escapes the handler. -/
theorem webhook_ok_or_error (update : JVal) (submit : Except SubmitError String) :
    (telegram_webhook update submit).2 = Except.ok (200, JVal.jobj []) ∨
    ∃ e, (telegram_webhook update submit).2 = Except.error e := by
  unfold telegram_webhook handleText
  repeat' split
  all_goals simp

/-- C4 (amended): whenever the webhook handler completes without an
uncaught exception it responds 200 with body `{}`; caught submission
failures are reported to the chat, not via the HTTP status.  Certain
malformed payloads, however, raise an uncaught exception (yielding a
framework 500) instead of responding 200. -/
theorem webhook_http_response (update : JVal) (submit : Except SubmitError String)
    (h : ∃ v, (telegram_webhook update submit).2 = Except.ok v) :
    (telegram_webhook update submit).2 = Except.ok (200, JVal.jobj []) := by
  obtain ⟨v, hv⟩ := h
  rcases webhook_ok_or_error update submit with h2 | ⟨e, h2⟩
  · exact h2
  · rw [h2] at hv
    simp at hv

/-- C4 counterexample: a payload whose message object lacks a chat raises
`KeyError`, so the handler does not produce a 200 response (Flask turns
the exception into a 500). -/
theorem webhook_http_response_counterexample :
    (telegram_webhook (JVal.jobj [("message", JVal.jobj [("text", JVal.jstr "hi")])])
        (Except.ok "o")).2 = Except.error (PyError.keyError "chat") := rfl

/-- Witness for `webhook_http_response` on a well-formed update. -/
theorem webhook_http_response_witness :
    (telegram_webhook (mkUpdate 1 "hello") (Except.ok "o")).2 =
      Except.ok (200, JVal.jobj []) :=
  webhook_http_response (mkUpdate 1 "hello") (Except.ok "o") ⟨(200, JVal.jobj []), rfl⟩

/-- C2 (amended): on a message with trimmed text `t`, the handler
proceeds to order submission exactly when `t` starts with the prefix
`/transcribe` (even when the prefix is immediately followed by further
non-whitespace characters) and whitespace-splitting `t` yields exactly
two parts; for any other text it sends exactly one usage hint and
submits nothing. -/
theorem webhook_command_gate (chat : Int) (s : String) (submit : Except SubmitError String) :
    (containsSubmitOrder (telegram_webhook (mkUpdate chat s) submit).1 = true ↔
      codeCond (pyStrip s.data) = true) ∧
    (codeCond (pyStrip s.data) = false →
      (telegram_webhook (mkUpdate chat s) submit).1 =
        [WAction.sendMessage (JVal.jnum chat)
          (if "/transcribe".data.isPrefixOf (pyStrip s.data)
           then "Usage: /transcribe <YouTube URL>"
           else "Send /transcribe <YouTube URL> to start a transcription.")]) := by
  rw [webhook_mkUpdate]
  generalize pyStrip s.data = t
  by_cases hp : "/transcribe".data.isPrefixOf t
  · rcases hsplit : pySplitMax1 t with _ | ⟨a, _ | ⟨b, _ | ⟨c, tl⟩⟩⟩
    · simp [handleText, codeCond, containsSubmitOrder, hp, hsplit]
    · simp [handleText, codeCond, containsSubmitOrder, hp, hsplit]
    · rcases submit with e | oid
      · rcases e with body | e <;>
          simp [handleText, codeCond, containsSubmitOrder, hp, hsplit]
      · simp [handleText, codeCond, containsSubmitOrder, hp, hsplit]
    · simp [handleText, codeCond, containsSubmitOrder, hp, hsplit]
  · simp [handleText, codeCond, containsSubmitOrder, hp]

/-- C2 counterexample: the text "/transcriber url" does not consist of
the command token followed by whitespace and an argument, yet the
handler submits an order for "url" instead of replying with the usage
hint. -/
theorem webhook_command_gate_counterexample :
    specCommandMatch (pyStrip "/transcriber url".data) = false ∧
    containsSubmitOrder
      (telegram_webhook (mkUpdate 7 "/transcriber url") (Except.ok "oid77")).1 = true ∧
    (telegram_webhook (mkUpdate 7 "/transcriber url") (Except.ok "oid77")).1 =
      [WAction.submitOrder "url".data,
       WAction.sendMessage (JVal.jnum 7)
         ("✅ Transcription started! Order ID: oid77\nI\x27ll notify you when it\x27s ready."),
       WAction.startThread "oid77" (JVal.jnum 7)] := ⟨rfl, rfl, rfl⟩

/-- Witness for `webhook_command_gate`: a well-formed command submits,
and a non-command text gets the reminder. -/
theorem webhook_command_gate_witness :
    containsSubmitOrder
      (telegram_webhook (mkUpdate 5 "/transcribe https://x") (Except.ok "o")).1 = true ∧
    (telegram_webhook (mkUpdate 5 "hi") (Except.ok "o")).1 =
      [WAction.sendMessage (JVal.jnum 5)
        (if "/transcribe".data.isPrefixOf (pyStrip "hi".data)
         then "Usage: /transcribe <YouTube URL>"
         else "Send /transcribe <YouTube URL> to start a transcription.")] :=
  ⟨(webhook_command_gate 5 "/transcribe https://x" (Except.ok "o")).1.mpr rfl,
   (webhook_command_gate 5 "hi" (Except.ok "o")).2 rfl⟩

/-- C5 (amended): when the submission response has a 4xx or 5xx status —
the only statuses on which `create_transcription` raises the `HTTPError`
the handler catches — the user gets exactly one chat message consisting
of "❌ Failed to create transcription: " followed by the response text,
the handler still responds 200, and no delivery task is started.  A
non-2xx status outside [400, 600), such as 304, does not raise, so the
handler proceeds as on success. -/
theorem webhook_submit_failure (chat : Int) (s : String) (r : HResp)
    (h : codeCond (pyStrip s.data) = true)
    (h4 : 400 ≤ r.status) (h5 : r.status < 600) :
    create_transcription r = Except.error (SubmitError.httpError r.text) ∧
    (∃ url, telegram_webhook (mkUpdate chat s)
        (Except.error (SubmitError.httpError r.text)) =
      ([WAction.submitOrder url,
        WAction.sendMessage (JVal.jnum chat)
          ("❌ Failed to create transcription: " ++ r.text)],
       Except.ok (200, JVal.jobj []))) ∧
    containsStartThread
      (telegram_webhook (mkUpdate chat s)
        (Except.error (SubmitError.httpError r.text))).1 = false := by
  simp only [codeCond, Bool.and_eq_true] at h
  obtain ⟨hp, hlen⟩ := h
  refine ⟨by simp [create_transcription, raise_for_status, h4, h5], ?_⟩
  rw [webhook_mkUpdate]
  rcases hsplit : pySplitMax1 (pyStrip s.data) with _ | ⟨a, _ | ⟨b, _ | ⟨c, tl⟩⟩⟩
  · rw [hsplit] at hlen
    simp at hlen
  · rw [hsplit] at hlen
    simp at hlen
  · refine ⟨⟨b, ?_⟩, ?_⟩ <;> simp [handleText, hp, hsplit, containsStartThread]
  · rw [hsplit] at hlen
    simp at hlen

/-- C5 counterexample: a non-2xx submission response outside 4xx/5xx
(status 304 with an order identifier in the body) does not raise, so the
handler sends the success acknowledgment — no "Failed to create
transcription" message — and starts a delivery task, refuting the claim
for that non-2xx response. -/
theorem webhook_submit_failure_counterexample :
    create_transcription ⟨304, "Not Modified", some (JVal.jobj [("order_id", JVal.jstr "ok304")])⟩ =
      Except.ok (JVal.jstr "ok304") ∧
    (telegram_webhook (mkUpdate 9 "/transcribe https://x") (Except.ok "ok304")).1 =
      [WAction.submitOrder "https://x".data,
       WAction.sendMessage (JVal.jnum 9)
         ("✅ Transcription started! Order ID: ok304\nI\x27ll notify you when it\x27s ready."),
       WAction.startThread "ok304" (JVal.jnum 9)] ∧
    containsStartThread
      (telegram_webhook (mkUpdate 9 "/transcribe https://x") (Except.ok "ok304")).1 =
      true := ⟨rfl, rfl, rfl⟩

/-- Witness for `webhook_submit_failure` on a concrete failed command
with a 400 response. -/
theorem webhook_submit_failure_witness :
    create_transcription ⟨400, "Bad Request", some (JVal.jobj [])⟩ =
      Except.error (SubmitError.httpError "Bad Request") ∧
    (∃ url, telegram_webhook (mkUpdate 3 "/transcribe https://x")
        (Except.error (SubmitError.httpError "Bad Request")) =
      ([WAction.submitOrder url,
        WAction.sendMessage (JVal.jnum 3)
          ("❌ Failed to create transcription: " ++ "Bad Request")],
       Except.ok (200, JVal.jobj []))) ∧
    containsStartThread (telegram_webhook (mkUpdate 3 "/transcribe https://x")
      (Except.error (SubmitError.httpError "Bad Request"))).1 = false :=
  webhook_submit_failure 3 "/transcribe https://x" ⟨400, "Bad Request", some (JVal.jobj [])⟩
    rfl (by decide) (by decide)

/-- C10 (amended): for every update holding a truthy (non-empty) message
or edited-message object whose chat id is present and whose text field
is a string that is absent, empty, or whitespace-only, the handler sends
exactly one usage-reminder message and responds 200 with `{}`. -/
theorem webhook_blank_text (update m : JVal) (m1 m2 : Option JVal) (chat cid : JVal)
    (s : String) (submit : Except SubmitError String)
    (h0 : truthy update = true)
    (h1 : jdictGet update "message" = Except.ok m1)
    (h2 : jdictGet update "edited_message" = Except.ok m2)
    (h3 : pyOr m1 m2 = some m)
    (h4 : truthy m = true)
    (h5 : jindex m "chat" = Except.ok chat)
    (h6 : jindex chat "id" = Except.ok cid)
    (h7 : jgetD m "text" (JVal.jstr "") = JVal.jstr s)
    (h8 : pyStrip s.data = []) :
    telegram_webhook update submit =
      ([WAction.sendMessage cid "Send /transcribe <YouTube URL> to start a transcription."],
       Except.ok (200, JVal.jobj [])) := by
  have step : telegram_webhook update submit = handleText cid (pyStrip s.data) submit := by
    simp [telegram_webhook, h0, h1, h2, h3, h4, h5, h6, h7]
  rw [step, h8]
  rfl

/-- C10 counterexample: an update carrying an empty message object (text
absent) is silently acknowledged — the handler sends no chat message at
all instead of a usage reminder. -/
theorem webhook_blank_text_counterexample :
    telegram_webhook (JVal.jobj [("message", JVal.jobj [])]) (Except.ok "o") =
      ([], Except.ok (200, JVal.jobj [])) := rfl

/-- Witness for `webhook_blank_text`: a message with a chat id and no
text field gets the usage reminder. -/
theorem webhook_blank_text_witness :
    telegram_webhook
        (JVal.jobj [("message", JVal.jobj [("chat", JVal.jobj [("id", JVal.jnum 7)])])])
        (Except.ok "o") =
      ([WAction.sendMessage (JVal.jnum 7)
          "Send /transcribe <YouTube URL> to start a transcription."],
       Except.ok (200, JVal.jobj [])) :=
  webhook_blank_text _ (JVal.jobj [("chat", JVal.jobj [("id", JVal.jnum 7)])])
    (some (JVal.jobj [("chat", JVal.jobj [("id", JVal.jnum 7)])])) none
    (JVal.jobj [("id", JVal.jnum 7)]) (JVal.jnum 7) "" (Except.ok "o")
    rfl rfl rfl rfl rfl rfl rfl rfl rfl

/-- A short text is a single chunk. -/
theorem chunkText_short {xs : List Char} (h1 : xs ≠ []) (h2 : xs.length ≤ 4096) :
    chunkText xs = [xs] := by
  rw [chunkText]
  simp only [h1, dif_neg, not_false_iff]
  rw [List.take_of_length_le h2, List.drop_eq_nil_of_le h2, chunkText]
  simp

/-- Witness for `send_message_chunking` on the concrete text "hi". -/
theorem send_message_chunking_witness :
    (send_message 1 "hi".data none).length = ("hi".data.length + 4095) / 4096 ∧
    "hi".data.length ≤ 4096 ∧
    ((send_message 1 "hi".data none).map (fun p => p.2.1)).flatten = "hi".data := by
  have h := send_message_chunking 1 none "hi".data
  refine ⟨h.1, ?_, h.2.2⟩
  have hm : (1, "hi".data, (none : Option Int)) ∈ send_message 1 "hi".data none := by
    rw [send_message, chunkText_short (by decide) (by decide)]
    simp
  exact h.2.1 (1, "hi".data, none) hm
